import Mathlib

/-!
# Default typed accessors of `AbstractType` (src/dbal/AbstractType_impl.hpp)

The file under study is

    #define EXPAND_TYPE(T) \
        T AbstractType::getAs(T* /* pure type parameter */) const { \
            throw std::logic_error("Internal error: Unsupported type conversion requested"); \
        }

    EXPAND_FOR_ALL_TYPES

    #undef EXPAND_TYPE

It defines, for every type `T` listed by `EXPAND_FOR_ALL_TYPES`, the member
function `T AbstractType::getAs(T*) const`, whose body is a single `throw`.

Embedding.
* A member function is a state-passing function on the state of the object
  it is called on: it receives the state and returns an outcome (a returned
  value or a thrown exception) together with the state the object is left in.
  Effects that happened before a `throw` persist in C++, so the state is
  returned next to the outcome, also when the outcome is an exception.
* The class declaration of `AbstractType` is not part of the file, so the
  object state is a type parameter `σ`.
* The list behind `EXPAND_FOR_ALL_TYPES` is not part of the file either, so it
  is a parameter: a type `ι` of type codes and the value domain `ty i` of each.
-/

namespace Dbal

/-! ## C++ run-time notions used by the file -/

/-- Exception classes of the C++ header `<stdexcept>`; the file throws
`std::logic_error`, the others are the classes it could be told apart from. -/
inductive ExceptionClass where
  | logic_error
  | domain_error
  | invalid_argument
  | length_error
  | out_of_range
  | runtime_error
  | range_error
  | overflow_error
  | underflow_error
  deriving DecidableEq, Repr

/-- A thrown standard exception object: its dynamic class and the string its
`what()` returns. -/
structure StdException where
  cls : ExceptionClass
  what : String
  deriving DecidableEq, Repr

/-- The constructor `std::logic_error(const char* what_arg)`. -/
def logic_error (what_arg : String) : StdException :=
  { cls := ExceptionClass.logic_error, what := what_arg }

/-- A pointer `T*` as a callee receives it: the null pointer, or the address of
an object together with the `T` stored there (what a dereference would read). -/
inductive Ptr (T : Type) where
  | null : Ptr T
  | toObj (addr : Nat) (pointee : T) : Ptr T

/-- The outcome of a call of a member function on an object with state `σ`:
the returned value or the exception thrown, and the state the object is left in. -/
abbrev Outcome (σ T : Type) : Type := Except StdException T × σ

/-- A member function returning `T`, called on an object with state `σ`. -/
abbrev Method (σ T : Type) : Type := σ → Outcome σ T

/-- The statement `throw e;`: the call ends with the exception `e`, the object
is left as it was when the statement was reached. -/
def throwStmt {σ T : Type} (e : StdException) : Method σ T :=
  fun s => (Except.error e, s)

/-- The exception a call ended with, if it ended with one. -/
def Outcome.raised {σ T : Type} (o : Outcome σ T) : Option StdException :=
  match o.1 with
  | Except.error e => some e
  | Except.ok _ => none

/-- The value a call returned, if it returned. -/
def Outcome.returned {σ T : Type} (o : Outcome σ T) : Option T :=
  match o.1 with
  | Except.error _ => none
  | Except.ok x => some x

/-! ## The source file -/

/-- One expansion `EXPAND_TYPE(T)`: the definition of
`T AbstractType::getAs(T*) const`. The parameter is unnamed in the source, the
body is the `throw` statement. -/
def EXPAND_TYPE {σ : Type} (T : Type) (_tag : Ptr T) : Method σ T :=
  throwStmt (logic_error "Internal error: Unsupported type conversion requested")

/-- The overload set `AbstractType::getAs` after `EXPAND_FOR_ALL_TYPES`: one
expansion of `EXPAND_TYPE` per listed type. The list itself is defined outside
the file and is the parameter `ty : ι → Type`. -/
def AbstractType.getAs {σ ι : Type} (ty : ι → Type) (i : ι) (tag : Ptr (ty i)) :
    Method σ (ty i) :=
  EXPAND_TYPE (ty i) tag

/-! ## Sequences of accessor calls -/

/-- One accessor call made by a client: the listed type asked for and the tag
argument passed. -/
structure Call {ι : Type} (ty : ι → Type) where
  idx : ι
  tag : Ptr (ty idx)

/-- A client makes the call, handles whatever it returns or throws, and keeps
the object: the state the object is left in. -/
def Call.exec {σ ι : Type} {ty : ι → Type} (c : Call ty) (s : σ) : σ :=
  (AbstractType.getAs ty c.idx c.tag s).2

/-- A finite sequence of accessor calls on one object, earliest first. -/
def runCalls {σ ι : Type} {ty : ι → Type} : List (Call ty) → σ → σ
  | [], s => s
  | c :: cs, s => runCalls cs (c.exec s)

/-! ## Producers -/

/-- Modelled from the spec: the producer subtypes of `AbstractType` and their
overriding accessors are not in the file. Following spec §6, a producer
supplies, for each listed type it wishes to support, a concrete conversion
function of the stored value; `none` marks a type it does not override. -/
structure Producer (σ : Type) {ι : Type} (ty : ι → Type) where
  conv : (i : ι) → Option (σ → ty i)

/-- Modelled from the spec: the accessor of a value made by a producer (the
overriding definitions are not in the file). Where the producer supplied a
conversion the accessor returns the conversion of the stored value; a type it
does not override inherits the default `AbstractType.getAs` (spec §4.1, §6). -/
def Producer.getAs {σ ι : Type} {ty : ι → Type} (p : Producer σ ty) (i : ι)
    (tag : Ptr (ty i)) : Method σ (ty i) :=
  match p.conv i with
  | some f => fun s => (Except.ok (f s), s)
  | none => AbstractType.getAs ty i tag

/-- Modelled from the spec: the three types named by the example scenario of
spec §8 (the real list of `EXPAND_FOR_ALL_TYPES` is not in the file). -/
inductive ScenarioType where
  | Integer
  | Text
  | FloatingPoint
  deriving DecidableEq, Repr

/-- Modelled from the spec: the value domain of each type of the scenario. -/
def ScenarioType.val : ScenarioType → Type
  | ScenarioType.Integer => Int
  | ScenarioType.Text => String
  | ScenarioType.FloatingPoint => Float

/-- Modelled from the spec: the producer of the scenario of spec §8, holding an
integer and implementing only the integer and the text accessor (the text
accessor gives the decimal form of the integer). -/
def integerProducer : Producer Int ScenarioType.val where
  conv := fun i =>
    match i with
    | ScenarioType.Integer => some (fun n => n)
    | ScenarioType.Text => some (fun n => toString n)
    | ScenarioType.FloatingPoint => none

/-! ## Properties of the default accessor -/

/-- The outcome of every expansion: the logic error of the source, object unchanged. -/
theorem getAs_eq {σ ι : Type} (ty : ι → Type) (i : ι) (tag : Ptr (ty i)) (v : σ) :
    AbstractType.getAs ty i tag v =
      (Except.error (logic_error "Internal error: Unsupported type conversion requested"), v) :=
  rfl

/-- Default accessor calls leave the object as it was, one after the other. -/
theorem runCalls_eq {σ ι : Type} (ty : ι → Type) (cs : List (Call ty)) (v : σ) :
    runCalls cs v = v := by
  induction cs generalizing v with
  | nil => rfl
  | cons c cs ih =>
    show runCalls cs (c.exec v) = v
    rw [ih]
    rfl

/-- C1: for every listed type and every value, the default accessor ends with
an exception and returns no value of the type: its outcome is an error, it is
not `ok x` for any `x` (a zero or default value of the type included), and
nothing is returned. -/
theorem getAs_fails_never_returns {σ ι : Type} (ty : ι → Type) (i : ι)
    (tag : Ptr (ty i)) (v : σ) :
    (∃ e, (AbstractType.getAs ty i tag v).1 = Except.error e) ∧
    (∀ x : ty i, (AbstractType.getAs ty i tag v).1 ≠ Except.ok x) ∧
    (AbstractType.getAs ty i tag v).returned = none := by
  refine ⟨⟨_, rfl⟩, ?_, rfl⟩
  intro x h
  rw [getAs_eq] at h
  cases h

/-- C2: the default accessors raise one and the same exception. For two listed
types, two values (of any two object types) and any tags, both calls raise an
exception and it is the same one, class and message; and whatever a default
accessor raises is the logic error with the message of the source. -/
theorem getAs_single_error {σ₁ σ₂ ι : Type} (ty : ι → Type) (i₁ i₂ : ι) (tag₁ : Ptr (ty i₁))
    (tag₂ : Ptr (ty i₂)) (v₁ : σ₁) (v₂ : σ₂) :
    (∃ e, (AbstractType.getAs ty i₁ tag₁ v₁).raised = some e ∧
          (AbstractType.getAs ty i₂ tag₂ v₂).raised = some e) ∧
    (∀ e, (AbstractType.getAs ty i₁ tag₁ v₁).raised = some e →
          e.cls = ExceptionClass.logic_error ∧
          e = logic_error "Internal error: Unsupported type conversion requested") := by
  refine ⟨⟨_, rfl, rfl⟩, ?_⟩
  intro e h
  have h2 : some (logic_error "Internal error: Unsupported type conversion requested") = some e := h
  cases h2
  exact ⟨rfl, rfl⟩

/-- C3: the default accessor is idempotent and independent of earlier calls.
After any finite sequence of earlier accessor calls on the value (for any
listed types and tags), the call has exactly the outcome it has when made
first, and the second of two successive calls has the result of the first. -/
theorem getAs_after_calls {σ ι : Type} (ty : ι → Type) (cs : List (Call ty)) (i : ι)
    (tag : Ptr (ty i)) (v : σ) :
    AbstractType.getAs ty i tag (runCalls cs v) = AbstractType.getAs ty i tag v ∧
    (AbstractType.getAs ty i tag (AbstractType.getAs ty i tag v).2).1 =
      (AbstractType.getAs ty i tag v).1 := by
  constructor
  · rw [runCalls_eq]
  · rfl

/-- C4: the default accessor has no side effect: the state of the object after
the call, which ends with the exception, is the state before the call. -/
theorem getAs_state_unchanged {σ ι : Type} (ty : ι → Type) (i : ι) (tag : Ptr (ty i)) (v : σ) :
    (AbstractType.getAs ty i tag v).2 = v :=
  rfl

/-- C7: the exception of the default accessor is a `std::logic_error` whose
message is exactly "Internal error: Unsupported type conversion requested",
the same literal for every listed type, tag and value. -/
theorem getAs_error_is_logic_error {σ ι : Type} (ty : ι → Type) (i : ι) (tag : Ptr (ty i)) (v : σ) :
    ∃ e, (AbstractType.getAs ty i tag v).1 = Except.error e ∧
      e.cls = ExceptionClass.logic_error ∧
      e.what = "Internal error: Unsupported type conversion requested" :=
  ⟨_, rfl, rfl, rfl⟩

/-- C8: the default accessor always completes and ignores its tag. It is a
total function whose value on every input is an outcome ending with an
exception, and the outcome is the same for the null tag, for a tag pointing to
any object, and for any two tags. -/
theorem getAs_total_tag_irrelevant {σ ι : Type} (ty : ι → Type) (i : ι)
    (tag tag₂ : Ptr (ty i)) (v : σ) :
    (∃ e s, AbstractType.getAs ty i tag v = (Except.error e, s)) ∧
    (∀ (addr : Nat) (x : ty i),
      AbstractType.getAs ty i Ptr.null v = AbstractType.getAs ty i (Ptr.toObj addr x) v) ∧
    AbstractType.getAs ty i tag v = AbstractType.getAs ty i tag₂ v :=
  ⟨⟨_, _, rfl⟩, fun _ _ => rfl, rfl⟩

/-- C9: the result of the default accessor does not depend on the stored
content: for a listed type and two values, of the same or of two different
object types, the two calls have equal results. -/
theorem getAs_content_independent {σ₁ σ₂ ι : Type} (ty : ι → Type) (i : ι)
    (tag₁ tag₂ : Ptr (ty i)) (v₁ : σ₁) (v₂ : σ₂) :
    (AbstractType.getAs ty i tag₁ v₁).1 = (AbstractType.getAs ty i tag₂ v₂).1 :=
  rfl

/-! ## Producers that override some accessors -/

/-- C5: a producer that supplies conversions for a subset of the listed types.
For a type it supplies a conversion for, the accessor returns the conversion
of the stored value; for a listed type it does not, the accessor raises the
error of the default accessor; the value is unchanged either way. The
scenario: over a stored integer `n`, the producer with only the integer and
the text accessor returns `n`, returns the decimal text of `n`, and raises the
error for the floating-point accessor. -/
theorem producer_getAs_subset {σ ι : Type} {ty : ι → Type} (p : Producer σ ty) (i : ι)
    (tag : Ptr (ty i)) (v : σ) (n : Int) (t₁ : Ptr Int) (t₂ : Ptr String) (t₃ : Ptr Float) :
    (∀ f, p.conv i = some f → p.getAs i tag v = (Except.ok (f v), v)) ∧
    (p.conv i = none → p.getAs i tag v =
      (Except.error (logic_error "Internal error: Unsupported type conversion requested"), v)) ∧
    integerProducer.getAs ScenarioType.Integer t₁ n = (Except.ok n, n) ∧
    integerProducer.getAs ScenarioType.Text t₂ n = (Except.ok (toString n), n) ∧
    integerProducer.getAs ScenarioType.FloatingPoint t₃ n =
      (Except.error (logic_error "Internal error: Unsupported type conversion requested"), n) := by
  refine ⟨?_, ?_, rfl, rfl, rfl⟩
  · intro f h
    unfold Producer.getAs
    rw [h]
  · intro h
    unfold Producer.getAs
    rw [h]
    rfl

/-- The scenario of C5 at the stored integers 42 and -7, with null tags. -/
theorem producer_getAs_subset_witness :
    integerProducer.getAs ScenarioType.Integer Ptr.null 42 = (Except.ok (42 : Int), 42) ∧
    integerProducer.getAs ScenarioType.Text Ptr.null 42 = (Except.ok "42", 42) ∧
    integerProducer.getAs ScenarioType.Text Ptr.null (-7) = (Except.ok "-7", -7) ∧
    integerProducer.getAs ScenarioType.FloatingPoint Ptr.null 42 =
      (Except.error (logic_error "Internal error: Unsupported type conversion requested"), 42) :=
  ⟨(producer_getAs_subset integerProducer ScenarioType.Integer Ptr.null 42 42
      Ptr.null Ptr.null Ptr.null).1 (fun n => n) rfl,
   (producer_getAs_subset integerProducer ScenarioType.Text Ptr.null 42 42
      Ptr.null Ptr.null Ptr.null).1 (fun n => toString n) rfl,
   (producer_getAs_subset integerProducer ScenarioType.Text Ptr.null (-7) (-7)
      Ptr.null Ptr.null Ptr.null).1 (fun n => toString n) rfl,
   (producer_getAs_subset integerProducer ScenarioType.FloatingPoint Ptr.null 42 42
      Ptr.null Ptr.null Ptr.null).2.1 rfl⟩

end Dbal
